import Mathlib

/-!
Verification of the environment-resolver Lambda handler
(`lambda_function/lambda_function.py`) and the key/value wiring of the CDK
stack (`my_assessment_project/my_assessment_project_stack.py`).

The handler is embedded shallowly:

* Python dictionaries that flow in and out of the handler become `JVal`,
  a JSON-like value type; `json.dumps` becomes `dumps`, reproducing
  Python's default separators (`", "` and `": "`) on the values the
  handler actually serializes.
* The external SSM service is a parameter: `SsmClient` carries the one
  API call the handler uses, `get_parameter`, returning either the
  parameter's `Value` string or the raised exception's message.
* `boto3.client "ssm"` (line 42 of the source) is itself fallible —
  it sits *outside* the `try` block, so a fault there propagates to the
  caller.  The handler therefore returns `Except String JVal`: `.ok` is
  a normal return, `.error` an escaped exception.
* `handlerCalls` additionally records the trace of SSM API calls the
  invocation performs, to state read-only/frame properties.
-/

/-- JSON-like values: the shape of Python dicts/strings/ints that the
handler builds and returns. -/
inductive JVal where
  | str (s : String)
  | num (n : Int)
  | obj (fields : List (String × JVal))
deriving Repr

/-- Field lookup in a JSON object; `none` on non-objects or absent keys. -/
def lookupField (v : JVal) (key : String) : Option JVal :=
  match v with
  | JVal.obj fields => fields.lookup key
  | _ => none

mutual

/-- Python `json.dumps` with its default separators, on the fragment of
values the handler serializes (string keys needing no escaping, integer
leaves).  `json.dumps({"controller": {"replicaCount": 1}})` yields
`\x7b"controller": \x7b"replicaCount": 1\x7d\x7d`. -/
def dumps : JVal → String
  | JVal.str s => "\"" ++ s ++ "\""
  | JVal.num n => toString n
  | JVal.obj fields => "\x7b" ++ dumpsFields fields ++ "\x7d"

/-- Comma-separated `"key": value` items of a JSON object, as
`json.dumps` renders them. -/
def dumpsFields : List (String × JVal) → String
  | [] => ""
  | [(k, v)] => "\"" ++ k ++ "\": " ++ dumps v
  | (k, v) :: rest => "\"" ++ k ++ "\": " ++ dumps v ++ ", " ++ dumpsFields rest

end

/-- One SSM API call, as recorded in an invocation's trace.  The SSM API
also offers mutating calls (modelled by `put_parameter`); the handler's
trace shows it never issues one. -/
inductive SsmCall where
  | get_parameter (name : String)
  | put_parameter (name value : String)
deriving Repr, DecidableEq

/-- Whether an SSM call is a pure read of the store. -/
def SsmCall.isRead : SsmCall → Bool
  | SsmCall.get_parameter _ => true
  | SsmCall.put_parameter _ _ => false

/-- The SSM client as the handler uses it: `get_parameter(Name=name)`
followed by `response["Parameter"]["Value"]`, collapsed to the `Value`
string it yields on success, or the raised exception's message (`str(e)`)
on any fault (key absent, store unreachable, access denied, ...). -/
structure SsmClient where
  get_parameter : String → Except String String

/-- The ambient boto3 library: `boto3.client(service)` either constructs
a client or raises (e.g. no region or credentials configured). -/
structure Boto3Env where
  client : String → Except String SsmClient

/-- The fixed configuration key the handler reads
(`param_name = "/platform/account/env"`, line 43 of the source). -/
def param_name : String := "/platform/account/env"

/-- The sizing structure `\x7b"controller": \x7b"replicaCount": n\x7d\x7d`
built on lines 52-56 of the source. -/
def controllerObj (n : Int) : JVal :=
  JVal.obj [("controller", JVal.obj [("replicaCount", JVal.num n)])]

/-- The success return value of line 59:
`\x7b"Status": "SUCCESS", "Data": \x7b"HelmValues": json.dumps(helm_values)\x7d\x7d`. -/
def successOutcome (helmValues : String) : JVal :=
  JVal.obj [("Status", JVal.str "SUCCESS"),
            ("Data", JVal.obj [("HelmValues", JVal.str helmValues)])]

/-- The failure return value of line 64:
`\x7b"Status": "FAILED", "Reason": str(e)\x7d`. -/
def failedOutcome (reason : String) : JVal :=
  JVal.obj [("Status", JVal.str "FAILED"), ("Reason", JVal.str reason)]

/-- The handler of `lambda_function.py` lines 29-64, instrumented with
the trace of SSM API calls it performs.  `boto3.client "ssm"` (line 42)
runs before the `try` of line 45, so a fault there is *not* caught and
surfaces as `Except.error`; every fault inside the `try` (the
`get_parameter` read and response processing) is caught by the `except`
of line 61 and turned into the `FAILED` dictionary. -/
def handlerCalls (boto3 : Boto3Env) (event context : JVal) :
    Except String JVal × List SsmCall :=
  match boto3.client "ssm" with
  | Except.error ex => (Except.error ex, [])
  | Except.ok ssm_client =>
    match ssm_client.get_parameter param_name with
    | Except.ok env_value =>
        let helm_values :=
          if env_value = "development" then controllerObj 1 else controllerObj 2
        (Except.ok (successOutcome (dumps helm_values)),
         [SsmCall.get_parameter param_name])
    | Except.error e =>
        (Except.ok (failedOutcome e), [SsmCall.get_parameter param_name])

/-- The handler's return value: `lambda_function.handler(event, context)`. -/
def handler (boto3 : Boto3Env) (event context : JVal) : Except String JVal :=
  (handlerCalls boto3 event context).fst

/-- Modelled from the spec: the external configuration store (out of the
repository, an "external key-value configuration service") as a finite
key/value table.  A read of an absent key fails "with a descriptive
error" whose "error text mention[s] the missing parameter". -/
def parameterNotFoundMessage (name : String) : String :=
  "An error occurred (ParameterNotFound) when calling the GetParameter operation: parameter " ++ name ++ " not found"

/-- Modelled from the spec: an SSM client backed by a finite store;
present keys yield their value, absent keys fail with the descriptive
missing-parameter error. -/
def storeClient (store : List (String × String)) : SsmClient :=
  ⟨fun name =>
    match store.lookup name with
    | some v => Except.ok v
    | none => Except.error (parameterNotFoundMessage name)⟩

/-- A boto3 environment whose client construction succeeds and returns
the given client. -/
def boto3With (c : SsmClient) : Boto3Env :=
  ⟨fun _ => Except.ok c⟩

/-- From `my_assessment_project_stack.py` line 131: `env_value = "development"`,
the initial value of the provisioned SSM parameter. -/
def stack_env_value : String := "development"

/-- From `my_assessment_project_stack.py` line 135: the `parameter_name`
of the `ssm.StringParameter` the stack provisions. -/
def stack_parameter_name : String := "/platform/account/env"

/-! ## Helper lemmas (shared across claims) -/

/-- Success and failure dictionaries are never equal: their `"Status"`
entries differ. -/
theorem successOutcome_ne_failedOutcome (d m : String) :
    successOutcome d ≠ failedOutcome m := by
  intro hdm
  simp [successOutcome, failedOutcome] at hdm

/-! ## Claims -/

/-- C1: for every store value `v` that is not the exact string
`"development"` (comparison exact and case-sensitive), a successful read
makes `handler` return a `SUCCESS` outcome whose sizing document has
replica count 2. -/
theorem C1_nondevelopment_replica_two
    (b : Boto3Env) (c : SsmClient) (ev cx : JVal) (v : String)
    (hb : b.client "ssm" = Except.ok c)
    (hv : c.get_parameter param_name = Except.ok v)
    (hne : v ≠ "development") :
    handler b ev cx = Except.ok (successOutcome (dumps (controllerObj 2))) := by
  simp [handler, handlerCalls, hb, hv, hne]

/-- C1 witness: the store value `"production"` yields the replica-count-2
success outcome. -/
theorem C1_nondevelopment_replica_two_witness :
    handler (boto3With (storeClient [(param_name, "production")])) (JVal.obj []) (JVal.obj [])
      = Except.ok (successOutcome (dumps (controllerObj 2))) :=
  C1_nondevelopment_replica_two (boto3With (storeClient [(param_name, "production")]))
    (storeClient [(param_name, "production")]) (JVal.obj []) (JVal.obj []) "production"
    rfl rfl (by decide)

/-- C2: for the store value exactly `"development"`, a successful read
makes `handler` return a `SUCCESS` outcome whose sizing document has
replica count 1. -/
theorem C2_development_replica_one
    (b : Boto3Env) (c : SsmClient) (ev cx : JVal)
    (hb : b.client "ssm" = Except.ok c)
    (hv : c.get_parameter param_name = Except.ok "development") :
    handler b ev cx = Except.ok (successOutcome (dumps (controllerObj 1))) := by
  simp [handler, handlerCalls, hb, hv]

/-- C2 witness: a store holding `"development"` under the fixed key
yields the replica-count-1 success outcome. -/
theorem C2_development_replica_one_witness :
    handler (boto3With (storeClient [(param_name, "development")])) (JVal.obj []) (JVal.obj [])
      = Except.ok (successOutcome (dumps (controllerObj 1))) :=
  C2_development_replica_one (boto3With (storeClient [(param_name, "development")]))
    (storeClient [(param_name, "development")]) (JVal.obj []) (JVal.obj []) rfl rfl

/-- C3: whenever the read of the configuration key fails with message
`m`, `handler` returns the `FAILED` outcome with `m` captured verbatim
as the reason; in particular, for a store lacking the key the reason is
non-empty. -/
theorem C3_failure_reason_verbatim
    (b : Boto3Env) (c : SsmClient) (ev cx : JVal) (m : String)
    (store : List (String × String))
    (hb : b.client "ssm" = Except.ok c)
    (hm : c.get_parameter param_name = Except.error m) :
    handler b ev cx = Except.ok (failedOutcome m) ∧
    (store.lookup param_name = none →
      ∃ r, handler (boto3With (storeClient store)) ev cx = Except.ok (failedOutcome r) ∧
        r ≠ "") := by
  constructor
  · simp [handler, handlerCalls, hb, hm]
  · intro habs
    refine ⟨parameterNotFoundMessage param_name, ?_, by decide⟩
    simp [handler, handlerCalls, boto3With, storeClient, habs]

/-- C3 witness: against the empty store, the read of the fixed key fails
and the handler surfaces the descriptive missing-parameter message. -/
theorem C3_failure_reason_verbatim_witness :
    handler (boto3With (storeClient [])) (JVal.obj []) (JVal.obj [])
      = Except.ok (failedOutcome (parameterNotFoundMessage param_name)) ∧
    (([] : List (String × String)).lookup param_name = none →
      ∃ r, handler (boto3With (storeClient [])) (JVal.obj []) (JVal.obj [])
        = Except.ok (failedOutcome r) ∧ r ≠ "") :=
  C3_failure_reason_verbatim (boto3With (storeClient [])) (storeClient [])
    (JVal.obj []) (JVal.obj []) (parameterNotFoundMessage param_name) [] rfl rfl

/-- C4 counterexample: the claim says no raised error ever escapes
`handler`, for all store/client behaviours.  But `boto3.client("ssm")`
(line 42) runs *before* the `try` of line 45: when client construction
faults, the exception propagates to the caller instead of becoming a
`FAILED` outcome. -/
theorem C4_escape_counterexample :
    handler ⟨fun _ => Except.error "Unable to locate credentials"⟩ (JVal.obj []) (JVal.obj [])
      = Except.error "Unable to locate credentials" := rfl

/-- C4 (amended): once the store client is constructed, no fault
escapes: for every client behaviour the handler returns normally with
some outcome dictionary. -/
theorem C4_no_escape_after_client_construction
    (b : Boto3Env) (c : SsmClient) (ev cx : JVal)
    (hb : b.client "ssm" = Except.ok c) :
    ∃ r, handler b ev cx = Except.ok r := by
  cases hv : c.get_parameter param_name with
  | ok v =>
      exact ⟨successOutcome (dumps (if v = "development" then controllerObj 1
          else controllerObj 2)),
        by simp [handler, handlerCalls, hb, hv]⟩
  | error e => exact ⟨failedOutcome e, by simp [handler, handlerCalls, hb, hv]⟩

/-- C4 witness: with an empty store (read fails) the handler still
returns normally. -/
theorem C4_no_escape_after_client_construction_witness :
    ∃ r, handler (boto3With (storeClient [])) (JVal.obj []) (JVal.obj []) = Except.ok r :=
  C4_no_escape_after_client_construction (boto3With (storeClient [])) (storeClient [])
    (JVal.obj []) (JVal.obj []) rfl

/-- C5: every normally-returned value of `handler` has exactly one of
two shapes: the success record (`Status = "SUCCESS"`, a `Data` payload,
no `Reason` field) or the failure record (`Status = "FAILED"`, a string
`Reason`, no `Data` field) — never both and never neither. -/
theorem C5_exactly_one_shape (b : Boto3Env) (ev cx r : JVal)
    (h : handler b ev cx = Except.ok r) :
    ((∃ d, r = successOutcome d ∧ lookupField r "Status" = some (JVal.str "SUCCESS") ∧
        lookupField r "Reason" = none) ∨
      (∃ m, r = failedOutcome m ∧ lookupField r "Status" = some (JVal.str "FAILED") ∧
        lookupField r "Data" = none)) ∧
    ¬((∃ d, r = successOutcome d) ∧ (∃ m, r = failedOutcome m)) := by
  unfold handler handlerCalls at h
  split at h
  · simp at h
  · split at h
    · simp at h
      subst h
      refine ⟨Or.inl ⟨_, rfl, rfl, rfl⟩, ?_⟩
      rintro ⟨⟨d, hd⟩, ⟨m, hm⟩⟩
      exact successOutcome_ne_failedOutcome _ m hm
    · simp at h
      subst h
      refine ⟨Or.inr ⟨_, rfl, rfl, rfl⟩, ?_⟩
      rintro ⟨⟨d, hd⟩, ⟨m, hm⟩⟩
      exact successOutcome_ne_failedOutcome d _ hd.symm

/-- C5 witness: the shape dichotomy at the concrete development-store
outcome. -/
theorem C5_exactly_one_shape_witness :
    ((∃ d, successOutcome (dumps (controllerObj 1)) = successOutcome d ∧
        lookupField (successOutcome (dumps (controllerObj 1))) "Status"
          = some (JVal.str "SUCCESS") ∧
        lookupField (successOutcome (dumps (controllerObj 1))) "Reason" = none) ∨
      (∃ m, successOutcome (dumps (controllerObj 1)) = failedOutcome m ∧
        lookupField (successOutcome (dumps (controllerObj 1))) "Status"
          = some (JVal.str "FAILED") ∧
        lookupField (successOutcome (dumps (controllerObj 1))) "Data" = none)) ∧
    ¬((∃ d, successOutcome (dumps (controllerObj 1)) = successOutcome d) ∧
      (∃ m, successOutcome (dumps (controllerObj 1)) = failedOutcome m)) :=
  C5_exactly_one_shape (boto3With (storeClient [(param_name, "development")]))
    (JVal.obj []) (JVal.obj []) (successOutcome (dumps (controllerObj 1))) rfl

/-- C6: on every `SUCCESS` outcome the `Data.HelmValues` field is the
serialization of exactly `\x7b"controller": \x7b"replicaCount": n\x7d\x7d`
with n = 1 or n = 2, and the development and production scenarios
produce exactly the serialized strings given in the spec. -/
theorem C6_success_payload_shape
    (b : Boto3Env) (c : SsmClient) (ev cx : JVal) (v : String)
    (hb : b.client "ssm" = Except.ok c)
    (hv : c.get_parameter param_name = Except.ok v) :
    (∃ n : Int, (n = 1 ∨ n = 2) ∧
      handler b ev cx = Except.ok (successOutcome (dumps (controllerObj n)))) ∧
    handler (boto3With (storeClient [(param_name, "development")])) ev cx
      = Except.ok (successOutcome "\x7b\"controller\": \x7b\"replicaCount\": 1\x7d\x7d") ∧
    handler (boto3With (storeClient [(param_name, "production")])) ev cx
      = Except.ok (successOutcome "\x7b\"controller\": \x7b\"replicaCount\": 2\x7d\x7d") := by
  refine ⟨?_, rfl, rfl⟩
  by_cases hdev : v = "development"
  · exact ⟨1, Or.inl rfl, by simp [handler, handlerCalls, hb, hv, hdev]⟩
  · exact ⟨2, Or.inr rfl, by simp [handler, handlerCalls, hb, hv, hdev]⟩

/-- C6 witness: at the store value `"staging"` the success payload is
one of the two legal sizing documents, and the two concrete scenarios
hold. -/
theorem C6_success_payload_shape_witness :
    (∃ n : Int, (n = 1 ∨ n = 2) ∧
      handler (boto3With (storeClient [(param_name, "staging")])) (JVal.obj []) (JVal.obj [])
        = Except.ok (successOutcome (dumps (controllerObj n)))) ∧
    handler (boto3With (storeClient [(param_name, "development")])) (JVal.obj []) (JVal.obj [])
      = Except.ok (successOutcome "\x7b\"controller\": \x7b\"replicaCount\": 1\x7d\x7d") ∧
    handler (boto3With (storeClient [(param_name, "production")])) (JVal.obj []) (JVal.obj [])
      = Except.ok (successOutcome "\x7b\"controller\": \x7b\"replicaCount\": 2\x7d\x7d") :=
  C6_success_payload_shape (boto3With (storeClient [(param_name, "staging")]))
    (storeClient [(param_name, "staging")]) (JVal.obj []) (JVal.obj []) "staging" rfl rfl

/-- C7: `handler` is a pure function of the stored value: if two boto3
environments yield clients whose reads of the fixed key agree, the two
invocations return identical outcomes, whatever the event and context
arguments. -/
theorem C7_pure_function_of_store
    (b1 b2 : Boto3Env) (c1 c2 : SsmClient) (ev1 cx1 ev2 cx2 : JVal)
    (hb1 : b1.client "ssm" = Except.ok c1)
    (hb2 : b2.client "ssm" = Except.ok c2)
    (hsame : c1.get_parameter param_name = c2.get_parameter param_name) :
    handler b1 ev1 cx1 = handler b2 ev2 cx2 := by
  cases hg : c2.get_parameter param_name with
  | ok v => simp [handler, handlerCalls, hb1, hb2, hsame, hg]
  | error e => simp [handler, handlerCalls, hb1, hb2, hsame, hg]

/-- C7 witness: two invocations against the same stored value
`"staging"` but different events and contexts agree. -/
theorem C7_pure_function_of_store_witness :
    handler (boto3With (storeClient [(param_name, "staging")])) (JVal.obj []) (JVal.num 0)
      = handler (boto3With (storeClient [(param_name, "staging")])) (JVal.str "x") (JVal.obj []) :=
  C7_pure_function_of_store
    (boto3With (storeClient [(param_name, "staging")]))
    (boto3With (storeClient [(param_name, "staging")]))
    (storeClient [(param_name, "staging")]) (storeClient [(param_name, "staging")])
    (JVal.obj []) (JVal.num 0) (JVal.str "x") (JVal.obj []) rfl rfl rfl

/-- C8: the outcome does not depend on the event or context arguments:
for a fixed boto3 environment, any two invocations return the same
value (noninterference of event/context with the result). -/
theorem C8_event_context_noninterference
    (b : Boto3Env) (ev1 cx1 ev2 cx2 : JVal) :
    handler b ev1 cx1 = handler b ev2 cx2 := rfl

/-- C9 counterexample: the claim says every invocation performs exactly
one external read.  But when client construction (line 42) faults, the
invocation aborts before any read: the SSM call trace is empty. -/
theorem C9_read_counterexample :
    (handlerCalls ⟨fun _ => Except.error "Unable to locate credentials"⟩
        (JVal.obj []) (JVal.obj [])).snd = [] := rfl

/-- C9 (amended): every invocation that constructs the store client
performs exactly one external read, of the fixed key
`/platform/account/env`, and its call trace contains only reads — the
store is never mutated. -/
theorem C9_single_read_read_only
    (b : Boto3Env) (c : SsmClient) (ev cx : JVal)
    (hb : b.client "ssm" = Except.ok c) :
    (handlerCalls b ev cx).snd = [SsmCall.get_parameter param_name] ∧
    ((handlerCalls b ev cx).snd.all SsmCall.isRead) = true := by
  cases hv : c.get_parameter param_name with
  | ok v => constructor <;> simp [handlerCalls, hb, hv, List.all, SsmCall.isRead]
  | error e => constructor <;> simp [handlerCalls, hb, hv, List.all, SsmCall.isRead]

/-- C9 witness: against the development store, the trace is the single
read of the fixed key. -/
theorem C9_single_read_read_only_witness :
    (handlerCalls (boto3With (storeClient [(param_name, "development")]))
        (JVal.obj []) (JVal.obj [])).snd = [SsmCall.get_parameter param_name] ∧
    ((handlerCalls (boto3With (storeClient [(param_name, "development")]))
        (JVal.obj []) (JVal.obj [])).snd.all SsmCall.isRead) = true :=
  C9_single_read_read_only (boto3With (storeClient [(param_name, "development")]))
    (storeClient [(param_name, "development")]) (JVal.obj []) (JVal.obj []) rfl

/-- C10: the stack provisions the configuration parameter under exactly
the key string the handler reads, with initial value `"development"`;
against a freshly provisioned store the handler returns `SUCCESS` with
replica count 1. -/
theorem C10_stack_key_matches_handler (ev cx : JVal) :
    stack_parameter_name = param_name ∧
    handler (boto3With (storeClient [(stack_parameter_name, stack_env_value)])) ev cx
      = Except.ok (successOutcome (dumps (controllerObj 1))) :=
  ⟨rfl, rfl⟩
